import Mathlib

/-!
Verification development for the `lune-std-fs` watch subsystem
(`src/crates/lune-std-fs/src/watch.rs` and `src/crates/lune-std-fs/src/lib.rs`).

The Rust code is shallowly embedded: Lua values are an inductive type,
the mlua conversions used by the code are modelled from mlua's documented
behaviour, `WatchOptions::from_lua` / `Default` / the polling interval of
`into_watcher` are translated directly, and the body of `fs_watch` is split
into its setup phase (handler resolution, glob compilation, watcher
registration) and its event loop (receive, filter, route, dispatch).
Third-party components whose internals the code does not contain
(globset's pattern compiler, the `notify` watcher registration) appear as
function parameters, so theorems hold for every behaviour of those
libraries. Filesystem metadata at filter time is carried on each path,
mirroring that `Path::is_file` / `Path::is_dir` consult the filesystem and
return `false` when the metadata check fails.
-/

namespace LuneFsWatch

/-- Lua values, restricted to the shapes the embedded code inspects.
Tables are association lists of string keys; functions are identified by
an opaque numeric id (the code only stores and schedules them). -/
inductive LuaValue where
  | nil
  | boolean (b : Bool)
  | number (n : Nat)
  | str (s : String)
  | table (fields : List (String × LuaValue))
  | function (id : Nat)
  | userdata
deriving Repr

/-- Lua type name, as mlua reports it in conversion errors. -/
def LuaValue.typeName : LuaValue → String
  | .nil => "nil"
  | .boolean _ => "boolean"
  | .number _ => "number"
  | .str _ => "string"
  | .table _ => "table"
  | .function _ => "function"
  | .userdata => "userdata"

/-- Errors surfaced to the Lua caller.  `fromLuaConversion` models
mlua's `LuaError::FromLuaConversionError`; `external` models errors of
the globset / notify libraries wrapped by `into_lua_err`. -/
inductive LuaError where
  | fromLuaConversion (fromName : String) (toName : String) (message : Option String)
  | external (message : String)
deriving Repr, DecidableEq

/-- Table field access: mlua's `Table::get` yields `nil` for an absent key. -/
def tableGet (fields : List (String × LuaValue)) (key : String) : LuaValue :=
  match fields.find? (fun kv => kv.1 = key) with
  | some kv => kv.2
  | none => .nil

/-- mlua's `bool::from_lua`: Lua truthiness, total (`nil` is false,
booleans are themselves, every other value is true).  Because it is
total, the `.unwrap_or_default()` in the Rust source never takes its
default branch for `bool` fields. -/
def luaToBool : LuaValue → Bool
  | .nil => false
  | .boolean b => b
  | _ => true

/-- mlua's `String::from_lua` with numeric coercion: strings convert,
numbers coerce to their decimal text, anything else is a conversion
error (modelled as `none`). -/
def luaToString? : LuaValue → Option String
  | .str s => some s
  | .number n => some (toString n)
  | _ => none

/-- mlua's `Option<u64>::from_lua` followed by `.unwrap_or_default()`,
as in the `interval` field of `WatchOptions::from_lua`: `nil` is `None`,
a number converts, a numeric string coerces, and every conversion error
collapses to the default `None`. -/
def luaToOptNat : LuaValue → Option Nat
  | .nil => none
  | .number n => some n
  | .str s => s.toNat?
  | _ => none

/-- mlua's `LuaFunction::from_lua` followed by `.ok()`, as used on the
handlers table: only a function value converts; every other value
(including `nil` for an absent key) yields `none`. -/
def luaToFunction? : LuaValue → Option Nat
  | .function id => some id
  | _ => none

/-- `WatchOptions` from `watch.rs` (field names kept, including the
source's `watch_diretories` spelling). -/
structure WatchOptions where
  pattern : String
  recursive : Bool
  watch_files : Bool
  watch_diretories : Bool
  interval : Option Nat
deriving Repr, DecidableEq

/-- The `Default` impl for `WatchOptions` in `watch.rs`. -/
def WatchOptions.default : WatchOptions :=
  { pattern := ""
    recursive := false
    watch_files := true
    watch_diretories := true
    interval := some 30 }

/-- `FromLua for WatchOptions` from `watch.rs`: a bare string sets
`pattern` and takes the struct defaults for the rest; a table reads
`pattern` (required, `?`-propagated), and the remaining fields with
`.unwrap_or_default()`; any other value is a conversion error. -/
def WatchOptions.from_lua : LuaValue → Except LuaError WatchOptions
  | .str s => .ok { WatchOptions.default with pattern := s }
  | .table t =>
      match luaToString? (tableGet t "pattern") with
      | none =>
          .error (.fromLuaConversion (tableGet t "pattern").typeName "String" none)
      | some p =>
          .ok { pattern := p
                recursive := luaToBool (tableGet t "recursive")
                watch_files := luaToBool (tableGet t "watchFiles")
                watch_diretories := luaToBool (tableGet t "watchDirectories")
                interval := luaToOptNat (tableGet t "interval") }
  | other =>
      .error (.fromLuaConversion other.typeName "WatchOptions"
        (some "Argument must be of type string or table"))

/-- The effective polling interval in seconds, from
`WatchOptions::into_watcher`: `self.interval.unwrap_or(30)` passed to
`Config::with_poll_interval`. -/
def WatchOptions.pollIntervalSecs (o : WatchOptions) : Nat :=
  o.interval.getD 30

/-- The capacity passed to `tokio::sync::mpsc::channel` in `fs_watch`. -/
def channelCapacity : Nat := 1

/-- File/directory bits of a successful metadata query. -/
structure PathMeta where
  isFile : Bool
  isDir : Bool
deriving Repr, DecidableEq

/-- A filesystem path as carried in a `notify` event: its OS byte
representation, together with the outcome of the metadata check at
filter time (`none` when the check fails, e.g. the path no longer
exists). -/
structure FsPath where
  bytes : List Nat
  meta : Option PathMeta
deriving Repr, DecidableEq

/-- Rust's `Path::is_file`: queries metadata and returns `false` when
the query fails. -/
def FsPath.is_file (p : FsPath) : Bool :=
  match p.meta with
  | some m => m.isFile
  | none => false

/-- Rust's `Path::is_dir`: queries metadata and returns `false` when
the query fails. -/
def FsPath.is_dir (p : FsPath) : Bool :=
  match p.meta with
  | some m => m.isDir
  | none => false

/-- `notify::event::AccessKind` (the payloads of `Open`/`Close` are
never inspected by the code and are elided). -/
inductive AccessKind where
  | any
  | accessedRead
  | opened
  | closed
  | other
deriving Repr, DecidableEq

/-- `notify::EventKind`.  The code matches `Create(_)`, `Modify(_)` and
`Remove(_)` with wildcard payloads, so those payloads are elided. -/
inductive EventKind where
  | any
  | access (a : AccessKind)
  | create
  | modify
  | remove
  | other
deriving Repr, DecidableEq

/-- A raw `notify::Event`: a kind and an ordered sequence of paths. -/
structure RawEvent where
  kind : EventKind
  paths : List FsPath
deriving Repr, DecidableEq

/-!
UTF-8 lossy decoding, modelling `Path::to_string_lossy`: the OS bytes of
a path are decoded to Unicode scalar values, with every maximal invalid
subpart replaced by U+FFFD (the WHATWG / Rust replacement policy).  The
result is represented as the list of scalar values.
-/

/-- The Unicode replacement character U+FFFD. -/
def replacementChar : Nat := 0xFFFD

/-- Whether a byte is a UTF-8 continuation byte (`0x80..=0xBF`). -/
def contByte (b : Nat) : Bool := 0x80 ≤ b && b ≤ 0xBF

/-- Decode one scalar value from the head of a byte list: `(some cp, k)`
when a valid `k`-byte sequence encoding `cp` starts the list, and
`(none, k)` when the head is invalid, where `k` is the length of the
maximal subpart to replace (at least 1). -/
def utf8DecodeStep : List Nat → Option Nat × Nat
  | [] => (none, 1)
  | b :: rest =>
    if b ≤ 0x7F then (some b, 1)
    else if 0xC2 ≤ b && b ≤ 0xDF then
      match rest with
      | c1 :: _ =>
        if contByte c1 then (some ((b - 0xC0) * 64 + (c1 - 0x80)), 2)
        else (none, 1)
      | [] => (none, 1)
    else if 0xE0 ≤ b && b ≤ 0xEF then
      let lo1 := if b = 0xE0 then 0xA0 else 0x80
      let hi1 := if b = 0xED then 0x9F else 0xBF
      match rest with
      | c1 :: rest2 =>
        if lo1 ≤ c1 && c1 ≤ hi1 then
          match rest2 with
          | c2 :: _ =>
            if contByte c2 then
              (some ((b - 0xE0) * 4096 + (c1 - 0x80) * 64 + (c2 - 0x80)), 3)
            else (none, 2)
          | [] => (none, 2)
        else (none, 1)
      | [] => (none, 1)
    else if 0xF0 ≤ b && b ≤ 0xF4 then
      let lo1 := if b = 0xF0 then 0x90 else 0x80
      let hi1 := if b = 0xF4 then 0x8F else 0xBF
      match rest with
      | c1 :: rest2 =>
        if lo1 ≤ c1 && c1 ≤ hi1 then
          match rest2 with
          | c2 :: rest3 =>
            if contByte c2 then
              match rest3 with
              | c3 :: _ =>
                if contByte c3 then
                  (some ((b - 0xF0) * 262144 + (c1 - 0x80) * 4096 +
                     (c2 - 0x80) * 64 + (c3 - 0x80)), 4)
                else (none, 3)
              | [] => (none, 3)
            else (none, 2)
          | [] => (none, 2)
        else (none, 1)
      | [] => (none, 1)
    else (none, 1)

/-- Fuelled worker for lossy decoding; each step consumes at least one
byte, so fuel equal to the byte count suffices. -/
def utf8DecodeLossyAux : Nat → List Nat → List Nat
  | 0, _ => []
  | _, [] => []
  | fuel + 1, b :: rest =>
    let s := utf8DecodeStep (b :: rest)
    s.1.getD replacementChar :: utf8DecodeLossyAux fuel ((b :: rest).drop s.2)

/-- Lossy UTF-8 decoding of a byte list to Unicode scalar values. -/
def utf8DecodeLossy (bs : List Nat) : List Nat :=
  utf8DecodeLossyAux bs.length bs

/-- Fuelled worker for strict UTF-8 validation. -/
def utf8ValidAux : Nat → List Nat → Bool
  | 0, l => l.isEmpty
  | _, [] => true
  | fuel + 1, b :: rest =>
    match utf8DecodeStep (b :: rest) with
    | (some _, k) => utf8ValidAux fuel ((b :: rest).drop k)
    | (none, _) => false

/-- Whether a byte list is valid UTF-8 (i.e. representable as text
without loss). -/
def utf8Valid (bs : List Nat) : Bool :=
  utf8ValidAux bs.length bs

/-- `Path::to_string_lossy` on the path's OS bytes, as the resulting
sequence of Unicode scalar values. -/
def FsPath.toStringLossy (p : FsPath) : List Nat :=
  utf8DecodeLossy p.bytes

/-- The four optional handler functions `fs_watch` extracts from the
handlers table before entering the loop. -/
structure Handlers where
  added : Option Nat
  read : Option Nat
  removed : Option Nat
  changed : Option Nat
deriving Repr, DecidableEq

/-- The four `handlers.get::<_, LuaFunction>(key).ok()` lines of
`fs_watch`: each key's value is converted to a function and any
conversion failure (absent key included) becomes `none`, never an
error. -/
def resolveHandlers (t : List (String × LuaValue)) : Handlers :=
  { added := luaToFunction? (tableGet t "added")
    read := luaToFunction? (tableGet t "read")
    removed := luaToFunction? (tableGet t "removed")
    changed := luaToFunction? (tableGet t "changed") }

/-- Result of the `match event.kind` in the loop body: either the
selected optional handler, or an unsupported kind (the `continue`
arm, where no handler is looked at). -/
inductive HandlerLookup where
  | unsupported
  | handler (h : Option Nat)
deriving Repr, DecidableEq

/-- The `match event.kind` of `fs_watch`: `Access(Read)` selects the
read handler, `Remove(_)` the removed handler, `Create(_)` the added
handler, `Modify(_)` the changed handler; `Any`, `Other` and every
other `Access` variant hit the `continue` arm. -/
def handlerFor (hs : Handlers) : EventKind → HandlerLookup
  | .access .accessedRead => .handler hs.read
  | .remove => .handler hs.removed
  | .create => .handler hs.added
  | .modify => .handler hs.changed
  | .any => .unsupported
  | .other => .unsupported
  | .access _ => .unsupported

/-- The two `.filter` stages of the loop body, before the lossy map:
keep a path iff `(is_file && watch_files) || (is_dir &&
watch_diretories)`, then iff the glob matches.  The compiled glob
matcher is a parameter, abstracting globset's matching. -/
def filteredFsPaths (opts : WatchOptions) (glob : FsPath → Bool)
    (ev : RawEvent) : List FsPath :=
  (ev.paths.filter fun p =>
      (p.is_file && opts.watch_files) || (p.is_dir && opts.watch_diretories)).filter
    glob

/-- The full `filtered_paths` vector of the loop body: the filtered
paths after `to_string_lossy`. -/
def filteredPaths (opts : WatchOptions) (glob : FsPath → Bool)
    (ev : RawEvent) : List (List Nat) :=
  (filteredFsPaths opts glob ev).map FsPath.toStringLossy

/-- What one loop iteration does with a successfully received event. -/
inductive StepResult where
  /-- `lua.push_thread_back(handler, filtered_paths)` was reached. -/
  | dispatched (handlerId : Nat) (paths : List (List Nat))
  /-- `filtered_paths.is_empty()` held: `continue`, no handler lookup. -/
  | skippedEmpty
  /-- the event kind hit the unsupported `continue` arm. -/
  | skippedKind
  /-- the selected handler slot was `None`: silently discarded. -/
  | skippedNoHandler
deriving Repr, DecidableEq

/-- The body of the `while let` loop for one received event, in source
order: compute `filtered_paths`, `continue` if empty, match the kind
(`continue` on unsupported kinds), then dispatch if the handler is
present. -/
def processEvent (opts : WatchOptions) (glob : FsPath → Bool)
    (hs : Handlers) (ev : RawEvent) : StepResult :=
  let fp := filteredPaths opts glob ev
  if fp.isEmpty then .skippedEmpty
  else
    match handlerFor hs ev.kind with
    | .unsupported => .skippedKind
    | .handler none => .skippedNoHandler
    | .handler (some h) => .dispatched h fp

/-- A handler invocation scheduled on the Lua scheduler
(`lua.push_thread_back`). -/
inductive Dispatch where
  | invoke (handlerId : Nat) (paths : List (List Nat))
deriving Repr, DecidableEq

/-- How the event loop ended. -/
inductive LoopOutcome where
  /-- `rx.recv()` returned `None` (channel closed): the loop exits and
  `fs_watch` returns `Ok(())`. -/
  | closed
  /-- a received `Err` was propagated by `res.into_lua_err()?`. -/
  | errored (e : LuaError)
deriving Repr, DecidableEq

/-- The `while let Some(res) = rx.recv().await` loop of `fs_watch`,
over the finite trace of channel deliveries (the end of the list is the
channel closing).  Returns the dispatches scheduled, in order, and how
the loop ended. -/
def runLoop (opts : WatchOptions) (glob : FsPath → Bool) (hs : Handlers) :
    List (Except LuaError RawEvent) → List Dispatch × LoopOutcome
  | [] => ([], .closed)
  | .error e :: _ => ([], .errored e)
  | .ok ev :: rest =>
    let r := runLoop opts glob hs rest
    match processEvent opts glob hs ev with
    | .dispatched h ps => (.invoke h ps :: r.1, r.2)
    | _ => r

/-- The setup phase of `fs_watch`: convert the options argument
(`FromLua`, done by mlua when extracting arguments), compile the glob
(`Glob::new(&options.pattern)?`), and register the root path
(`watcher.watch(root, recursive_mode)?`), each failure exiting by `?`
before the loop.  `globNew` abstracts globset's compiler and
`watchRegister` abstracts the `notify` watcher together with the state
of the filesystem at the root.  In the source the four handlers are
resolved between watcher construction and glob compilation; that
resolution is infallible, so it is placed in the final success branch
here.  (`RecommendedWatcher::new` itself can also fail through the same
`?` mechanism; no claim concerns it and it is not modelled
separately.) -/
def fs_watch_setup (globNew : String → Except LuaError (FsPath → Bool))
    (watchRegister : String → Bool → Except LuaError Unit)
    (root : String) (optsVal : LuaValue) (handlersTbl : List (String × LuaValue)) :
    Except LuaError (WatchOptions × (FsPath → Bool) × Handlers) :=
  match WatchOptions.from_lua optsVal with
  | .error e => .error e
  | .ok opts =>
    match globNew opts.pattern with
    | .error e => .error e
    | .ok glob =>
      match watchRegister root opts.recursive with
      | .error e => .error e
      | .ok _ => .ok (opts, glob, resolveHandlers handlersTbl)

/-- The whole `fs_watch` call: setup, then the event loop over the
delivery trace.  A setup failure is returned before any event is
received. -/
def fs_watch (globNew : String → Except LuaError (FsPath → Bool))
    (watchRegister : String → Bool → Except LuaError Unit)
    (root : String) (optsVal : LuaValue) (handlersTbl : List (String × LuaValue))
    (trace : List (Except LuaError RawEvent)) :
    Except LuaError (List Dispatch × LoopOutcome) :=
  match fs_watch_setup globNew watchRegister root optsVal handlersTbl with
  | .error e => .error e
  | .ok (opts, glob, hs) => .ok (runLoop opts glob hs trace)

/-!
The capacity-1 channel between the `notify` callback thread
(`tx.blocking_send`) and the session loop (`rx.recv`), modelled as a
transition system: the producer still has a list of events to send, the
channel buffer holds at most one event (capacity 1), and the consumer
has received a list of events.  A send is only enabled when the buffer
is empty — this is `blocking_send` stalling the producer until the loop
has taken the previous event.
-/

/-- State of the producer / capacity-1 channel / consumer system. -/
structure ChanState (α : Type) where
  pending : List α
  buffer : Option α
  received : List α

/-- The two transitions: the producer hands its next event into the
empty buffer (`blocking_send`), or the consumer takes the buffered
event (`rx.recv`). -/
inductive ChanStep {α : Type} : ChanState α → ChanState α → Prop where
  | send (x : α) (rest : List α) (rcv : List α) :
      ChanStep ⟨x :: rest, none, rcv⟩ ⟨rest, some x, rcv⟩
  | recv (p : List α) (x : α) (rcv : List α) :
      ChanStep ⟨p, some x, rcv⟩ ⟨p, none, rcv ++ [x]⟩

/-- The value the `fs_watch` call returns to the Lua caller, from the
loop's ending: `Ok(())` when the loop exits on channel close, the
propagated error when a received `Err` went through `?`. -/
def sessionResult (r : List Dispatch × LoopOutcome) : Except LuaError Unit :=
  match r.2 with
  | .closed => .ok ()
  | .errored e => .error e

/-!  Helper lemmas shared across the claim theorems. -/

/-- Membership in the filtered path list: a path survives both filter
stages iff it is a path of the event, passes the type filter, and
matches the glob. -/
lemma mem_filteredFsPaths_iff (opts : WatchOptions) (glob : FsPath → Bool)
    (ev : RawEvent) (p : FsPath) :
    p ∈ filteredFsPaths opts glob ev ↔
      p ∈ ev.paths ∧
        ((p.is_file ∧ opts.watch_files) ∨ (p.is_dir ∧ opts.watch_diretories)) ∧
        glob p := by
  simp only [filteredFsPaths, List.mem_filter, Bool.or_eq_true, Bool.and_eq_true,
    and_assoc]

/-- A value that is not a function converts to `none` under
`luaToFunction?`. -/
lemma luaToFunction?_eq_none (v : LuaValue)
    (h : ∀ id, v ≠ LuaValue.function id) : luaToFunction? v = none := by
  cases v with
  | function id => exact absurd rfl (h id)
  | nil => rfl
  | boolean b => rfl
  | number n => rfl
  | str s => rfl
  | table t => rfl
  | userdata => rfl

/-- When the selected handler lookup does not yield a present handler,
no dispatch happens. -/
lemma processEvent_no_dispatch (opts : WatchOptions) (glob : FsPath → Bool)
    (hs : Handlers) (ev : RawEvent)
    (h : handlerFor hs ev.kind = .unsupported ∨
      handlerFor hs ev.kind = .handler none) :
    ∀ hid ps, processEvent opts glob hs ev ≠ .dispatched hid ps := by
  intro hid ps
  unfold processEvent
  by_cases he : (filteredPaths opts glob ev).isEmpty
  · simp [he]
  · rcases h with h | h <;> simp [he, h]

/-- A trace of only successful receives drives the loop to `closed`. -/
lemma runLoop_all_ok_closed (opts : WatchOptions) (glob : FsPath → Bool)
    (hs : Handlers) :
    ∀ trace : List (Except LuaError RawEvent),
      (∀ x ∈ trace, ∃ ev, x = Except.ok ev) →
      (runLoop opts glob hs trace).2 = .closed := by
  intro trace h
  induction trace with
  | nil => rfl
  | cons x rest ih =>
    obtain ⟨ev, rfl⟩ := h x (List.mem_cons_self x rest)
    have ih' := ih (fun y hy => h y (List.mem_cons_of_mem _ hy))
    cases hp : processEvent opts glob hs ev <;>
      simp [runLoop, hp, ih']

/-- A receive error after a prefix of successful receives ends the loop
with exactly the dispatches of the prefix and the `errored` outcome;
nothing after the error is processed. -/
lemma runLoop_error_cut (opts : WatchOptions) (glob : FsPath → Bool)
    (hs : Handlers) (e : LuaError) :
    ∀ pre post, (∀ x ∈ pre, ∃ ev, x = Except.ok ev) →
      runLoop opts glob hs (pre ++ .error e :: post) =
        ((runLoop opts glob hs pre).1, .errored e) := by
  intro pre
  induction pre with
  | nil => intro post _; rfl
  | cons x rest ih =>
    intro post h
    obtain ⟨ev, rfl⟩ := h x (List.mem_cons_self x rest)
    have ih' := ih post (fun y hy => h y (List.mem_cons_of_mem _ hy))
    cases hp : processEvent opts glob hs ev <;>
      simp [runLoop, List.cons_append, hp, ih']

/-- One channel step preserves the delivery-order invariant: received
events, then the buffered event, then the still-pending events, always
spell out the original production order. -/
lemma chanStep_invariant {α : Type} (xs : List α) {s t : ChanState α}
    (hstep : ChanStep s t)
    (hinv : s.received ++ s.buffer.toList ++ s.pending = xs) :
    t.received ++ t.buffer.toList ++ t.pending = xs := by
  cases hstep <;> simp_all

/-!  Claim theorems. -/

/-- C1: the claim states that in both the bare-string and record option
forms the unsupplied fields take the documented defaults (`recursive`
false, `watchFiles` true, `watchDirectories` true, polling interval 30
seconds).  The code violates this in the record form: the
`.unwrap_or_default()` calls in `WatchOptions::from_lua` take the
field-type defaults (`bool::default() = false`, `Option::default() =
None`), not the `Default for WatchOptions` values, and mlua converts an
absent field (`nil`) to `false` for `bool` in any case — so a record
supplying only `pattern` yields `watch_files = false` and
`watch_diretories = false`, while the bare-string form takes the struct
defaults (`true`, `true`).  This theorem evaluates both forms at the
failing input. -/
theorem C1_record_form_defaults_bug :
    WatchOptions.from_lua (.table [("pattern", .str "*")]) =
      .ok { pattern := "*", recursive := false, watch_files := false,
            watch_diretories := false, interval := none } ∧
    WatchOptions.from_lua (.str "*") =
      .ok { pattern := "*", recursive := false, watch_files := true,
            watch_diretories := true, interval := some 30 } ∧
    WatchOptions.default.watch_files = true ∧
    WatchOptions.default.watch_diretories = true ∧
    WatchOptions.pollIntervalSecs
        { pattern := "*", recursive := false, watch_files := false,
          watch_diretories := false, interval := none } = 30 :=
  ⟨rfl, rfl, rfl, rfl, rfl⟩

/-- C2: the event-kind to handler-category mapping is the fixed total
mapping Created→added, Removed→removed, Modified→changed,
AccessRead→read, and every other kind (`Any`, `Other`, or an `Access`
variant other than `Read`) is dropped with no handler lookup and no
dispatch. -/
theorem C2_kind_mapping (hs : Handlers) :
    handlerFor hs .create = .handler hs.added ∧
    handlerFor hs .remove = .handler hs.removed ∧
    handlerFor hs .modify = .handler hs.changed ∧
    handlerFor hs (.access .accessedRead) = .handler hs.read ∧
    handlerFor hs .any = .unsupported ∧
    handlerFor hs .other = .unsupported ∧
    (∀ a : AccessKind, a ≠ .accessedRead → handlerFor hs (.access a) = .unsupported) ∧
    (∀ (opts : WatchOptions) (glob : FsPath → Bool) (ev : RawEvent),
      handlerFor hs ev.kind = .unsupported →
      ∀ hid ps, processEvent opts glob hs ev ≠ .dispatched hid ps) := by
  refine ⟨rfl, rfl, rfl, rfl, rfl, rfl, ?_, ?_⟩
  · intro a ha
    cases a with
    | accessedRead => exact absurd rfl ha
    | any => rfl
    | opened => rfl
    | closed => rfl
    | other => rfl
  · intro opts glob ev hk
    exact processEvent_no_dispatch opts glob hs ev (Or.inl hk)

/-- Witness for C2 at a concrete handlers record and a concrete
non-`Read` access kind. -/
theorem C2_kind_mapping_witness :
    handlerFor ⟨some 1, some 2, some 3, some 4⟩ (.access .opened) = .unsupported :=
  (C2_kind_mapping ⟨some 1, some 2, some 3, some 4⟩).2.2.2.2.2.2.1 .opened
    (by decide)

/-- C3: a path of a raw event survives filtering iff ((it is a file and
`watchFiles` is set) or (it is a directory and `watchDirectories` is
set)) and it matches the compiled glob; no other path appears in the
filtered list. -/
theorem C3_filter_membership (opts : WatchOptions) (glob : FsPath → Bool)
    (ev : RawEvent) (p : FsPath) :
    p ∈ filteredFsPaths opts glob ev ↔
      p ∈ ev.paths ∧
        ((p.is_file ∧ opts.watch_files) ∨ (p.is_dir ∧ opts.watch_diretories)) ∧
        glob p :=
  mem_filteredFsPaths_iff opts glob ev p

/-- C4: an event whose filtered path list is empty is dropped by the
`continue` before any handler lookup — the loop's result on such an
event followed by the rest of the trace is exactly its result on the
rest of the trace, with no dispatch and no error. -/
theorem C4_empty_filtered_skips (opts : WatchOptions) (glob : FsPath → Bool)
    (hs : Handlers) (ev : RawEvent) (rest : List (Except LuaError RawEvent))
    (h : filteredPaths opts glob ev = []) :
    processEvent opts glob hs ev = .skippedEmpty ∧
    runLoop opts glob hs (.ok ev :: rest) = runLoop opts glob hs rest := by
  have hp : processEvent opts glob hs ev = .skippedEmpty := by
    simp [processEvent, h]
  exact ⟨hp, by simp [runLoop, hp]⟩

/-- Witness for C4: an event with no paths has an empty filtered list
and is skipped. -/
theorem C4_empty_filtered_skips_witness :
    processEvent WatchOptions.default (fun _ => true) ⟨some 1, none, none, none⟩
        ⟨.create, []⟩ = .skippedEmpty ∧
    runLoop WatchOptions.default (fun _ => true) ⟨some 1, none, none, none⟩
        [.ok ⟨.create, []⟩] =
      runLoop WatchOptions.default (fun _ => true) ⟨some 1, none, none, none⟩ [] :=
  C4_empty_filtered_skips WatchOptions.default (fun _ => true)
    ⟨some 1, none, none, none⟩ ⟨.create, []⟩ [] rfl

/-- C5: a record-form options value whose `pattern` field is absent (or
not convertible to a string), a pattern rejected by the glob compiler,
or a failing watcher registration on the root path each make the call
fail synchronously, with the same error for every delivery trace — the
loop never runs and no event is processed. -/
theorem C5_setup_failures_synchronous
    (globNew : String → Except LuaError (FsPath → Bool))
    (watchRegister : String → Bool → Except LuaError Unit)
    (root : String) (htbl : List (String × LuaValue)) :
    (∀ t trace, luaToString? (tableGet t "pattern") = none →
      fs_watch globNew watchRegister root (.table t) htbl trace =
        .error (.fromLuaConversion (tableGet t "pattern").typeName "String" none)) ∧
    (∀ optsVal opts e trace, WatchOptions.from_lua optsVal = .ok opts →
      globNew opts.pattern = .error e →
      fs_watch globNew watchRegister root optsVal htbl trace = .error e) ∧
    (∀ optsVal opts g e trace, WatchOptions.from_lua optsVal = .ok opts →
      globNew opts.pattern = .ok g →
      watchRegister root opts.recursive = .error e →
      fs_watch globNew watchRegister root optsVal htbl trace = .error e) := by
  refine ⟨?_, ?_, ?_⟩
  · intro t trace h
    simp [fs_watch, fs_watch_setup, WatchOptions.from_lua, h]
  · intro optsVal opts e trace h1 h2
    simp [fs_watch, fs_watch_setup, h1, h2]
  · intro optsVal opts g e trace h1 h2 h3
    simp [fs_watch, fs_watch_setup, h1, h2, h3]

/-- Witness for C5: a glob compiler that rejects the pattern makes the
call return that exact error, with a nonempty trace never processed. -/
theorem C5_setup_failures_synchronous_witness :
    fs_watch (fun _ => .error (.external "bad glob")) (fun _ _ => .ok ())
        "/root" (.str "*") []
        [.ok ⟨.create, [⟨[97], some ⟨true, false⟩⟩]⟩] =
      .error (.external "bad glob") :=
  (C5_setup_failures_synchronous (fun _ => .error (.external "bad glob"))
      (fun _ _ => .ok ()) "/root" []).2.1 (.str "*")
    { WatchOptions.default with pattern := "*" } (.external "bad glob")
    [.ok ⟨.create, [⟨[97], some ⟨true, false⟩⟩]⟩] rfl rfl

/-- C6: a receive-level watcher error (an `Err` delivered on the
channel, after any prefix of successful receives) ends the loop in the
`errored` state, keeps only the dispatches of the prefix (no retry, the
rest of the trace is never processed) and propagates exactly that error
to the caller; a trace of only successful receives that ends (channel
closed) ends the loop in the `closed` state and the call returns
`Ok(())` with no error. -/
theorem C6_error_and_close_termination (opts : WatchOptions)
    (glob : FsPath → Bool) (hs : Handlers) :
    (∀ pre e post, (∀ x ∈ pre, ∃ ev, x = Except.ok ev) →
      runLoop opts glob hs (pre ++ .error e :: post) =
        ((runLoop opts glob hs pre).1, .errored e) ∧
      sessionResult (runLoop opts glob hs (pre ++ .error e :: post)) = .error e) ∧
    (∀ trace, (∀ x ∈ trace, ∃ ev, x = Except.ok ev) →
      (runLoop opts glob hs trace).2 = .closed ∧
      sessionResult (runLoop opts glob hs trace) = .ok ()) := by
  constructor
  · intro pre e post h
    have hc := runLoop_error_cut opts glob hs e pre post h
    exact ⟨hc, by simp [sessionResult, hc]⟩
  · intro trace h
    have hc := runLoop_all_ok_closed opts glob hs trace h
    exact ⟨hc, by simp [sessionResult, hc]⟩

/-- Witness for C6 at a one-error trace and at the empty trace. -/
theorem C6_error_and_close_termination_witness :
    sessionResult (runLoop WatchOptions.default (fun _ => true)
        ⟨none, none, none, none⟩ ([] ++ .error (.external "boom") :: [])) =
      .error (.external "boom") ∧
    sessionResult (runLoop WatchOptions.default (fun _ => true)
        ⟨none, none, none, none⟩ []) = .ok () :=
  ⟨((C6_error_and_close_termination WatchOptions.default (fun _ => true)
      ⟨none, none, none, none⟩).1 [] (.external "boom") [] (by simp)).2,
   ((C6_error_and_close_termination WatchOptions.default (fun _ => true)
      ⟨none, none, none, none⟩).2 [] (by simp)).2⟩

/-- C7 counterexample: the claim says a path whose bytes are not valid
UTF-8 is a crash-equivalent condition — the watch call fails rather
than delivering or altering the path.  The code instead converts the
path with `to_string_lossy`: at the concrete event below the single
path `[0xFF]` is not representable as text, yet the loop completes in
the `closed` state (no failure) and dispatches the handler with the
altered path `[U+FFFD]`. -/
theorem C7_counterexample_lossy_not_crash :
    utf8Valid [0xFF] = false ∧
    runLoop { WatchOptions.default with pattern := "*" } (fun _ => true)
        ⟨some 7, none, none, none⟩
        [.ok ⟨.create, [⟨[0xFF], some ⟨true, false⟩⟩]⟩] =
      ([.invoke 7 [[replacementChar]]], .closed) ∧
    [replacementChar] ≠ [0xFF] :=
  ⟨rfl, rfl, by decide⟩

/-- C7 as amended: a raw event whose paths are not representable as
UTF-8 never makes the watch call fail; the event is processed like any
other, and any dispatched path list consists of the lossy decodings
(invalid byte sequences replaced by U+FFFD) of the filtered paths. -/
theorem C7_amended_lossy_delivery (opts : WatchOptions) (glob : FsPath → Bool)
    (hs : Handlers) (ev : RawEvent) (trace : List (Except LuaError RawEvent)) :
    (runLoop opts glob hs (.ok ev :: trace)).2 = (runLoop opts glob hs trace).2 ∧
    (∀ hid ps, processEvent opts glob hs ev = .dispatched hid ps →
      ps = (filteredFsPaths opts glob ev).map FsPath.toStringLossy) := by
  constructor
  · cases hp : processEvent opts glob hs ev <;> simp [runLoop, hp]
  · intro hid ps hd
    unfold processEvent at hd
    by_cases he : (filteredPaths opts glob ev).isEmpty
    · simp [he] at hd
    · cases hk : handlerFor hs ev.kind with
      | unsupported => simp [he, hk] at hd
      | handler h =>
        cases h with
        | none => simp [he, hk] at hd
        | some hid' =>
          simp [he, hk] at hd
          exact hd.2.symm

/-- Witness for C7's amended statement at the concrete non-UTF-8
event. -/
theorem C7_amended_lossy_delivery_witness :
    ([[replacementChar]] : List (List Nat)) =
      (filteredFsPaths { WatchOptions.default with pattern := "*" }
          (fun _ => true) ⟨.create, [⟨[0xFF], some ⟨true, false⟩⟩]⟩).map
        FsPath.toStringLossy :=
  (C7_amended_lossy_delivery { WatchOptions.default with pattern := "*" }
      (fun _ => true) ⟨some 7, none, none, none⟩
      ⟨.create, [⟨[0xFF], some ⟨true, false⟩⟩]⟩ []).2 7 [[replacementChar]] rfl

/-- C8: the producer/channel/consumer system with the capacity-1
buffer and blocking hand-off (`tokio::sync::mpsc::channel(1)` with
`blocking_send`) never drops or reorders events: in every state
reachable from a start state with production list `xs`, the received
events, the buffered event and the pending events concatenate to
exactly `xs` — so the consumer observes a prefix of the original
production order, and a slow consumer only delays delivery. -/
theorem C8_capacity_one_order (α : Type) (xs : List α) (s : ChanState α)
    (h : Relation.ReflTransGen ChanStep ⟨xs, none, []⟩ s) :
    channelCapacity = 1 ∧
    s.received ++ s.buffer.toList ++ s.pending = xs := by
  refine ⟨rfl, ?_⟩
  induction h with
  | refl => simp
  | tail _ step ih => exact chanStep_invariant xs step ih

/-- Witness for C8: one send followed by one receive delivers the
single produced event. -/
theorem C8_capacity_one_order_witness :
    channelCapacity = 1 ∧
    ([5] : List Nat) ++ (none : Option Nat).toList ++ [] = [5] :=
  C8_capacity_one_order Nat [5] ⟨[], none, [5]⟩
    (Relation.ReflTransGen.tail
      (Relation.ReflTransGen.single (ChanStep.send 5 [] []))
      (ChanStep.recv [] 5 []))

/-- C9: a path whose metadata check fails at filter time (`meta =
none`, e.g. the path no longer exists) is classified as neither a file
nor a directory, so it is excluded from the filtered list whatever the
`watchFiles` and `watchDirectories` settings and the glob. -/
theorem C9_stat_failure_excluded (opts : WatchOptions) (glob : FsPath → Bool)
    (ev : RawEvent) (p : FsPath) (h : p.meta = none) :
    p.is_file = false ∧ p.is_dir = false ∧ p ∉ filteredFsPaths opts glob ev := by
  have hf : p.is_file = false := by simp [FsPath.is_file, h]
  have hd : p.is_dir = false := by simp [FsPath.is_dir, h]
  refine ⟨hf, hd, ?_⟩
  intro hmem
  rcases (mem_filteredFsPaths_iff opts glob ev p).mp hmem with ⟨-, hty, -⟩
  rcases hty with ⟨hff, -⟩ | ⟨hdd, -⟩
  · rw [hf] at hff; cases hff
  · rw [hd] at hdd; cases hdd

/-- Witness for C9: a vanished path is excluded even with both type
flags set and a glob that matches everything. -/
theorem C9_stat_failure_excluded_witness :
    (FsPath.mk [97] none).is_file = false ∧
    (FsPath.mk [97] none).is_dir = false ∧
    FsPath.mk [97] none ∉
      filteredFsPaths WatchOptions.default (fun _ => true)
        ⟨.create, [⟨[97], none⟩]⟩ :=
  C9_stat_failure_excluded WatchOptions.default (fun _ => true)
    ⟨.create, [⟨[97], none⟩]⟩ ⟨[97], none⟩ rfl

/-- C10: a handlers-table entry under `added`, `read`, `removed` or
`changed` that is not a function is treated as absent — the `.ok()`
conversion never raises — and an event routed to a category whose
handler slot is `none` is silently discarded with no dispatch. -/
theorem C10_nonfunction_handler_ignored (t : List (String × LuaValue)) :
    ((∀ id, tableGet t "added" ≠ .function id) → (resolveHandlers t).added = none) ∧
    ((∀ id, tableGet t "read" ≠ .function id) → (resolveHandlers t).read = none) ∧
    ((∀ id, tableGet t "removed" ≠ .function id) → (resolveHandlers t).removed = none) ∧
    ((∀ id, tableGet t "changed" ≠ .function id) → (resolveHandlers t).changed = none) ∧
    (∀ (opts : WatchOptions) (glob : FsPath → Bool) (ev : RawEvent),
      handlerFor (resolveHandlers t) ev.kind = .handler none →
      ∀ hid ps, processEvent opts glob (resolveHandlers t) ev ≠ .dispatched hid ps) := by
  refine ⟨?_, ?_, ?_, ?_, ?_⟩
  · intro h; exact luaToFunction?_eq_none _ h
  · intro h; exact luaToFunction?_eq_none _ h
  · intro h; exact luaToFunction?_eq_none _ h
  · intro h; exact luaToFunction?_eq_none _ h
  · intro opts glob ev hk
    exact processEvent_no_dispatch opts glob (resolveHandlers t) ev (Or.inr hk)

/-- Witness for C10 at a table whose `added` entry is a string. -/
theorem C10_nonfunction_handler_ignored_witness :
    (resolveHandlers [("added", .str "nope")]).added = none :=
  (C10_nonfunction_handler_ignored [("added", .str "nope")]).1
    (fun _ h => LuaValue.noConfusion h)

end LuneFsWatch
